import Mathlib

/-!
Shallow embedding of `src/PyInstaller/utils/hooks/django.py`, function
`django_dottedstring_imports` (lines 17-142).

The function inspects a Django settings object and collects a list of
dotted module-name strings.  We model the settings object as a structure
whose fields are `Option`-valued when the source guards the access with
`hasattr` or `getattr(..., None)` (a `none` field models an absent
attribute).  The attributes `INSTALLED_APPS` (line 57), `ROOT_URLCONF`
(line 89) and `DATABASES` (line 127) are read without any guard, so an
absent attribute there raises AttributeError; the model therefore also
makes them `Option`-valued and returns `Except String (List String)`,
erroring exactly where the Python code would raise.

Dictionary-valued settings (`CACHES`, `STORAGES`, `DATABASES`) are only
ever consumed through `.values()`, in the deterministic insertion order
of Python dicts, so we model them as lists of their values.  Dictionary
entries that are accessed with mandatory indexing (`templ[BACKEND]`,
`v[ENGINE]`) are modelled as mandatory structure fields; entries accessed
with `.get` are `Option`-valued fields.

The final `list(set(hiddenimports))` (line 139) deduplicates, but the
iteration order of a CPython `set` of strings depends on the string hash,
which is randomized per process (and the decorated function runs in a
fresh isolated subprocess on every call).  We make that environment
dependence explicit: the model takes an order key `setHash : String → Nat`
standing for the hash state of the process, and enumerates the
deduplicated elements sorted by that key.

The helper `hookutils.collect_submodules` (line 135) belongs to the host
tool and is not part of this file; the model takes it as a function
parameter `collect_submodules : String → List String`.
-/

/-- One value of the CACHES OPTIONS dictionary: only the key CLIENT_CLASS
is read (line 76), via `.get`, so it is optional. -/
structure CacheOptions where
  CLIENT_CLASS : Option String
deriving DecidableEq, Repr

/-- One value of the CACHES dictionary (lines 71-79): BACKEND is read via
`cache.get` (line 73) and OPTIONS via `cache.get` with default `{}`
(line 76). -/
structure Cache where
  BACKEND : Option String
  OPTIONS : Option CacheOptions
deriving DecidableEq, Repr

/-- One value of the STORAGES dictionary (lines 81-84): only BACKEND is
read, via `storage.get` (line 83). -/
structure Storage where
  BACKEND : Option String
deriving DecidableEq, Repr

/-- The OPTIONS sub-dictionary of a TEMPLATES entry: only the key
context_processors is read (line 69), via `.get` with default `[]`. -/
structure TemplateOptions where
  context_processors : Option (List String)
deriving DecidableEq, Repr

/-- One entry of the TEMPLATES list (lines 67-69 and 115-125): BACKEND is
read with mandatory indexing `templ[BACKEND]` (line 117) and OPTIONS via
`template.get` with default `{}` (line 69). -/
structure Template where
  BACKEND : String
  OPTIONS : Option TemplateOptions
deriving DecidableEq, Repr

/-- One value of the DATABASES dictionary: ENGINE is read with mandatory
indexing `v[ENGINE]` (line 128). -/
structure Database where
  ENGINE : String
deriving DecidableEq, Repr

/-- The Django settings object, restricted to the attributes the hook
reads.  A `none` field models an attribute that is absent from the
settings object (`hasattr` false / `getattr` default). -/
structure Settings where
  INSTALLED_APPS : Option (List String)
  TEMPLATE_CONTEXT_PROCESSORS : Option (List String)
  TEMPLATES : Option (List Template)
  CACHES : Option (List Cache)
  STORAGES : Option (List Storage)
  TEMPLATE_LOADERS : Option (List String)
  ROOT_URLCONF : Option String
  AUTHENTICATION_BACKENDS : Option (List String)
  DEFAULT_FILE_STORAGE : Option String
  FILE_UPLOAD_HANDLERS : Option (List String)
  MIDDLEWARE_CLASSES : Option (List String)
  MIDDLEWARE : Option (List String)
  DATABASES : Option (List Database)
deriving DecidableEq, Repr

/-- Model of Python attribute access without a `hasattr` guard: returns
the value, or raises AttributeError when the attribute is absent. -/
def pyGetattr {α : Type} (name : String) : Option α → Except String α
  | some v => Except.ok v
  | none => Except.error ("AttributeError: settings object has no attribute " ++ name)

/-- Python truthiness of an optional string value: `None` and the empty
string are falsy, any other string is truthy (the tests on lines 73, 77
and 100 of the source). -/
def truthyStr : Option String → Bool
  | some s => !s.isEmpty
  | none => false

/-- Model of Python `hasattr` applied to a dictionary value (lines 120-121
of the source): a dict stores its entries as items, not as object
attributes, so `hasattr` on the string keys used here is always False. -/
def dictHasattr {α : Type} (_d : α) (_name : String) : Bool :=
  false

/-- Model of Python `class_name.split('.')`, character level: splits at
every occurrence of the dot character; the result is always nonempty, and
splitting a dot-free string gives the one-element list of that string. -/
def splitDotChars : List Char → List (List Char)
  | [] => [[]]
  | c :: rest =>
    if c = '.' then [] :: splitDotChars rest
    else
      match splitDotChars rest with
      | [] => [[c]]
      | group :: groups => (c :: group) :: groups

/-- Model of Python `class_name.split('.')` on strings. -/
def pySplitDot (class_name : String) : List String :=
  (splitDotChars class_name.data).map List.asString

/-- Source lines 60-61: strip the final dot-separated component, keeping
the module path.  Python: `'.'.join(class_name.split('.')[0:-1])`; the
slice `[0:-1]` is `List.dropLast`. -/
def _remove_class (class_name : String) : String :=
  String.intercalate "." (pySplitDot class_name).dropLast

/-- Insert a string into a list so that the order keys `setHash` stay
ascending. -/
def insertByKey (setHash : String → Nat) (x : String) : List String → List String
  | [] => [x]
  | y :: ys => if setHash x < setHash y then x :: y :: ys else y :: insertByKey setHash x ys

/-- Sort a list of strings by the order key `setHash` (insertion sort). -/
def sortByKey (setHash : String → Nat) : List String → List String
  | [] => []
  | x :: xs => insertByKey setHash x (sortByKey setHash xs)

/-- Model of CPython `list(set(xs))` for strings (source line 139): each
distinct element of `xs` occurs exactly once, enumerated in the hash-table
order of the process, which we model by sorting on the per-process order
key `setHash`. -/
def pySetToList (setHash : String → Nat) (xs : List String) : List String :=
  sortByKey setHash xs.dedup

/-- Source line 57: `hiddenimports = list(settings.INSTALLED_APPS)`. -/
def installedAppsImports (installed_apps : List String) : List String :=
  installed_apps

/-- Source lines 64-65: the TEMPLATE_CONTEXT_PROCESSORS entries, verbatim,
when the attribute is present. -/
def templateContextProcessorsImports : Option (List String) → List String
  | some procs => procs
  | none => []

/-- Source line 69: `template.get('OPTIONS', {}).get('context_processors', [])`. -/
def templateCtxProcessors (template : Template) : List String :=
  ((template.OPTIONS.getD ⟨none⟩).context_processors).getD []

/-- Source lines 67-69: for each TEMPLATES entry, the context_processors
of its OPTIONS dictionary, verbatim. -/
def templatesOptionImports : Option (List Template) → List String
  | some templates => templates.flatMap templateCtxProcessors
  | none => []

/-- Source lines 72-79: contribution of one CACHES value: the stripped
BACKEND when truthy, then the stripped OPTIONS CLIENT_CLASS when truthy. -/
def cacheImports (cache : Cache) : List String :=
  (if truthyStr cache.BACKEND then [_remove_class (cache.BACKEND.getD "")] else [])
    ++ (let client_class := (cache.OPTIONS.getD ⟨none⟩).CLIENT_CLASS
        if truthyStr client_class then [_remove_class (client_class.getD "")] else [])

/-- Source lines 71-79: the CACHES contributions, over `CACHES.values()`. -/
def cachesImports : Option (List Cache) → List String
  | some caches => caches.flatMap cacheImports
  | none => []

/-- Source lines 81-84: the loop over `STORAGES.values()` computes
`cl = _remove_class(storage.get('BACKEND'))` but never appends `cl` to
`hiddenimports`, so the section contributes nothing to the output. -/
def storagesImports : Option (List Storage) → List String
  | _ => []

/-- Source lines 86-87: the TEMPLATE_LOADERS entries, verbatim, when the
attribute is present. -/
def templateLoadersImports : Option (List String) → List String
  | some loaders => loaders
  | none => []

/-- Source lines 94-97: each AUTHENTICATION_BACKENDS entry, stripped of
its class name. -/
def authenticationBackendsImports : Option (List String) → List String
  | some backends => backends.map _remove_class
  | none => []

/-- Source lines 99-101: `getattr(settings, 'DEFAULT_FILE_STORAGE', None)`;
when truthy, its stripped form is appended. -/
def defaultFileStorageImports (dfs : Option String) : List String :=
  if truthyStr dfs then [_remove_class (dfs.getD "")] else []

/-- Source lines 102-105: each FILE_UPLOAD_HANDLERS entry, stripped. -/
def fileUploadHandlersImports : Option (List String) → List String
  | some handlers => handlers.map _remove_class
  | none => []

/-- Source lines 106-109: each MIDDLEWARE_CLASSES entry, stripped. -/
def middlewareClassesImports : Option (List String) → List String
  | some mids => mids.map _remove_class
  | none => []

/-- Source lines 110-113: each MIDDLEWARE entry, stripped. -/
def middlewareImports : Option (List String) → List String
  | some mids => mids.map _remove_class
  | none => []

/-- Source lines 116-125: for one TEMPLATES entry, the stripped BACKEND,
then the stripped context_processors guarded by `hasattr(templ, 'OPTIONS')`
on a dictionary, which is always false, so that inner branch is dead. -/
def templateBackendImports (templ : Template) : List String :=
  _remove_class templ.BACKEND
    :: (if dictHasattr templ "OPTIONS" then
          (if dictHasattr (templ.OPTIONS.getD ⟨none⟩) "context_processors" then
            (((templ.OPTIONS.getD ⟨none⟩).context_processors).getD []).map _remove_class
          else [])
        else [])

/-- Source lines 115-125: the TEMPLATES backend contributions. -/
def templatesBackendImports : Option (List Template) → List String
  | some templates => templates.flatMap templateBackendImports
  | none => []

/-- Source lines 127-128: `v['ENGINE']` for each DATABASES value,
verbatim. -/
def databasesImports (databases : List Database) : List String :=
  databases.map Database.ENGINE

/-- Source lines 131-136: for one installed app, the templatetags module,
the collected submodules of that module, and the context_processors
module, in that order. -/
def appImports (collect_submodules : String → List String) (app : String) : List String :=
  let app_templatetag_module := app ++ ".templatetags"
  let app_ctx_proc_module := app ++ ".context_processors"
  app_templatetag_module :: (collect_submodules app_templatetag_module ++ [app_ctx_proc_module])

/-- Source lines 130-136: the per-app contributions over INSTALLED_APPS. -/
def installedAppsExtraImports (collect_submodules : String → List String)
    (installed_apps : List String) : List String :=
  installed_apps.flatMap (appImports collect_submodules)

/-- The full `hiddenimports` list right before deduplication (source lines
57-136): the concatenation of the per-attribute contributions, in the
order the source appends them. -/
def hiddenimportsList (collect_submodules : String → List String)
    (installed_apps : List String) (root_urlconf : String) (databases : List Database)
    (s : Settings) : List String :=
  installedAppsImports installed_apps
    ++ templateContextProcessorsImports s.TEMPLATE_CONTEXT_PROCESSORS
    ++ templatesOptionImports s.TEMPLATES
    ++ cachesImports s.CACHES
    ++ storagesImports s.STORAGES
    ++ templateLoadersImports s.TEMPLATE_LOADERS
    ++ [root_urlconf]
    ++ authenticationBackendsImports s.AUTHENTICATION_BACKENDS
    ++ defaultFileStorageImports s.DEFAULT_FILE_STORAGE
    ++ fileUploadHandlersImports s.FILE_UPLOAD_HANDLERS
    ++ middlewareClassesImports s.MIDDLEWARE_CLASSES
    ++ middlewareImports s.MIDDLEWARE
    ++ templatesBackendImports s.TEMPLATES
    ++ databasesImports databases
    ++ installedAppsExtraImports collect_submodules installed_apps

/-- Source lines 17-142: the full hook.  The three unguarded attribute
reads (INSTALLED_APPS on line 57, ROOT_URLCONF on line 89, DATABASES on
line 127) raise AttributeError when the attribute is absent; they are
checked here in the order the source reaches them (the guarded sections in
between cannot raise).  Otherwise the result is the deduplication of the
collected list, enumerated in the hash order of the process (line 139). -/
def django_dottedstring_imports (collect_submodules : String → List String)
    (setHash : String → Nat) (settings : Settings) : Except String (List String) := do
  let installed_apps ← pyGetattr "INSTALLED_APPS" settings.INSTALLED_APPS
  let root_urlconf ← pyGetattr "ROOT_URLCONF" settings.ROOT_URLCONF
  let databases ← pyGetattr "DATABASES" settings.DATABASES
  pure (pySetToList setHash
    (hiddenimportsList collect_submodules installed_apps root_urlconf databases settings))

/-- Inserting by key is a permutation of consing. -/
theorem insertByKey_perm (h : String → Nat) (x : String) (l : List String) :
    (insertByKey h x l).Perm (x :: l) := by
  induction l with
  | nil => exact List.Perm.refl _
  | cons y ys ih =>
    unfold insertByKey
    by_cases hxy : h x < h y
    · rw [if_pos hxy]
    · rw [if_neg hxy]
      exact (ih.cons y).trans (List.Perm.swap x y ys)

/-- Sorting by key permutes the list. -/
theorem sortByKey_perm (h : String → Nat) (l : List String) :
    (sortByKey h l).Perm l := by
  induction l with
  | nil => exact List.Perm.refl _
  | cons x xs ih => exact (insertByKey_perm h x (sortByKey h xs)).trans (ih.cons x)

/-- The model of `list(set(xs))` is a permutation of the deduplication of
`xs`, whatever the hash state. -/
theorem pySetToList_perm_dedup (h : String → Nat) (xs : List String) :
    (pySetToList h xs).Perm xs.dedup :=
  sortByKey_perm h xs.dedup

/-- The model of `list(set(xs))` has no duplicates. -/
theorem pySetToList_nodup (h : String → Nat) (xs : List String) :
    (pySetToList h xs).Nodup :=
  (pySetToList_perm_dedup h xs).symm.nodup (List.nodup_dedup xs)

/-- Membership in the model of `list(set(xs))` is membership in `xs`. -/
theorem mem_pySetToList (h : String → Nat) (xs : List String) (a : String) :
    a ∈ pySetToList h xs ↔ a ∈ xs :=
  (pySetToList_perm_dedup h xs).mem_iff.trans List.mem_dedup

/-- Inversion of the hook: it returns a list exactly when the three
unguarded attributes are present, and then the list is the deduplicated
collection. -/
theorem django_ok_iff (cs : String → List String) (h : String → Nat) (s : Settings)
    (out : List String) :
    django_dottedstring_imports cs h s = Except.ok out ↔
      ∃ ia ru db, s.INSTALLED_APPS = some ia ∧ s.ROOT_URLCONF = some ru ∧
        s.DATABASES = some db ∧
        out = pySetToList h (hiddenimportsList cs ia ru db s) := by
  cases hIA : s.INSTALLED_APPS <;> cases hRU : s.ROOT_URLCONF <;> cases hDB : s.DATABASES <;>
    simp [django_dottedstring_imports, pyGetattr, hIA, hRU, hDB, Bind.bind, Except.bind,
      Pure.pure, Except.pure, eq_comm]

/-- Elements of the INSTALLED_APPS section are in the collected list. -/
theorem mem_hidden_installed (cs : String → List String) (ia : List String)
    (ru : String) (db : List Database) (s : Settings) (a : String)
    (ha : a ∈ installedAppsImports ia) : a ∈ hiddenimportsList cs ia ru db s := by
  simp only [hiddenimportsList, List.mem_append]
  tauto

/-- Elements of the TEMPLATE_CONTEXT_PROCESSORS section are in the
collected list. -/
theorem mem_hidden_tcp (cs : String → List String) (ia : List String)
    (ru : String) (db : List Database) (s : Settings) (a : String)
    (ha : a ∈ templateContextProcessorsImports s.TEMPLATE_CONTEXT_PROCESSORS) :
    a ∈ hiddenimportsList cs ia ru db s := by
  simp only [hiddenimportsList, List.mem_append]
  tauto

/-- Elements of the TEMPLATES context_processors section are in the
collected list. -/
theorem mem_hidden_templ_opts (cs : String → List String) (ia : List String)
    (ru : String) (db : List Database) (s : Settings) (a : String)
    (ha : a ∈ templatesOptionImports s.TEMPLATES) :
    a ∈ hiddenimportsList cs ia ru db s := by
  simp only [hiddenimportsList, List.mem_append]
  tauto

/-- Elements of the CACHES section are in the collected list. -/
theorem mem_hidden_caches (cs : String → List String) (ia : List String)
    (ru : String) (db : List Database) (s : Settings) (a : String)
    (ha : a ∈ cachesImports s.CACHES) : a ∈ hiddenimportsList cs ia ru db s := by
  simp only [hiddenimportsList, List.mem_append]
  tauto

/-- Elements of the TEMPLATE_LOADERS section are in the collected list. -/
theorem mem_hidden_loaders (cs : String → List String) (ia : List String)
    (ru : String) (db : List Database) (s : Settings) (a : String)
    (ha : a ∈ templateLoadersImports s.TEMPLATE_LOADERS) :
    a ∈ hiddenimportsList cs ia ru db s := by
  simp only [hiddenimportsList, List.mem_append]
  tauto

/-- The ROOT_URLCONF value is in the collected list. -/
theorem mem_hidden_root (cs : String → List String) (ia : List String)
    (ru : String) (db : List Database) (s : Settings) :
    ru ∈ hiddenimportsList cs ia ru db s := by
  simp only [hiddenimportsList, List.mem_append, List.mem_singleton]
  tauto

/-- Elements of the AUTHENTICATION_BACKENDS section are in the collected
list. -/
theorem mem_hidden_auth (cs : String → List String) (ia : List String)
    (ru : String) (db : List Database) (s : Settings) (a : String)
    (ha : a ∈ authenticationBackendsImports s.AUTHENTICATION_BACKENDS) :
    a ∈ hiddenimportsList cs ia ru db s := by
  simp only [hiddenimportsList, List.mem_append]
  tauto

/-- Elements of the DEFAULT_FILE_STORAGE section are in the collected
list. -/
theorem mem_hidden_dfs (cs : String → List String) (ia : List String)
    (ru : String) (db : List Database) (s : Settings) (a : String)
    (ha : a ∈ defaultFileStorageImports s.DEFAULT_FILE_STORAGE) :
    a ∈ hiddenimportsList cs ia ru db s := by
  simp only [hiddenimportsList, List.mem_append]
  tauto

/-- Elements of the FILE_UPLOAD_HANDLERS section are in the collected
list. -/
theorem mem_hidden_fuh (cs : String → List String) (ia : List String)
    (ru : String) (db : List Database) (s : Settings) (a : String)
    (ha : a ∈ fileUploadHandlersImports s.FILE_UPLOAD_HANDLERS) :
    a ∈ hiddenimportsList cs ia ru db s := by
  simp only [hiddenimportsList, List.mem_append]
  tauto

/-- Elements of the MIDDLEWARE_CLASSES section are in the collected list. -/
theorem mem_hidden_mc (cs : String → List String) (ia : List String)
    (ru : String) (db : List Database) (s : Settings) (a : String)
    (ha : a ∈ middlewareClassesImports s.MIDDLEWARE_CLASSES) :
    a ∈ hiddenimportsList cs ia ru db s := by
  simp only [hiddenimportsList, List.mem_append]
  tauto

/-- Elements of the MIDDLEWARE section are in the collected list. -/
theorem mem_hidden_mw (cs : String → List String) (ia : List String)
    (ru : String) (db : List Database) (s : Settings) (a : String)
    (ha : a ∈ middlewareImports s.MIDDLEWARE) :
    a ∈ hiddenimportsList cs ia ru db s := by
  simp only [hiddenimportsList, List.mem_append]
  tauto

/-- Elements of the TEMPLATES backend section are in the collected list. -/
theorem mem_hidden_templ_backend (cs : String → List String) (ia : List String)
    (ru : String) (db : List Database) (s : Settings) (a : String)
    (ha : a ∈ templatesBackendImports s.TEMPLATES) :
    a ∈ hiddenimportsList cs ia ru db s := by
  simp only [hiddenimportsList, List.mem_append]
  tauto

/-- Elements of the DATABASES section are in the collected list. -/
theorem mem_hidden_db (cs : String → List String) (ia : List String)
    (ru : String) (db : List Database) (s : Settings) (a : String)
    (ha : a ∈ databasesImports db) : a ∈ hiddenimportsList cs ia ru db s := by
  simp only [hiddenimportsList, List.mem_append]
  tauto

/-- Elements of the per-app section are in the collected list. -/
theorem mem_hidden_apps (cs : String → List String) (ia : List String)
    (ru : String) (db : List Database) (s : Settings) (a : String)
    (ha : a ∈ installedAppsExtraImports cs ia) :
    a ∈ hiddenimportsList cs ia ru db s := by
  simp only [hiddenimportsList, List.mem_append]
  tauto

/-- Splitting a dot-free character list gives the one-element list. -/
theorem splitDotChars_of_no_dot (l : List Char) (hnd : '.' ∉ l) :
    splitDotChars l = [l] := by
  induction l with
  | nil => rfl
  | cons c rest ih =>
    have hc : ¬ c = '.' := by
      intro h
      exact hnd (h ▸ List.mem_cons_self c rest)
    have hrest : '.' ∉ rest := fun h => hnd (List.mem_cons_of_mem c h)
    unfold splitDotChars
    rw [if_neg hc, ih hrest]

/-- Stripping a dot-free string gives the empty string: the split has a
single component, the slice removes it, and the join of nothing is empty. -/
theorem _remove_class_of_no_dot (cl : String) (hnd : '.' ∉ cl.data) :
    _remove_class cl = "" := by
  unfold _remove_class pySplitDot
  rw [splitDotChars_of_no_dot cl.data hnd]
  rfl

/-- A collect_submodules stub that finds no submodules. -/
def noCollect : String → List String := fun _ => []

/-- A collect_submodules stub that finds one submodule of the
templatetags package of app1. -/
def collectW : String → List String :=
  fun m => if m = "app1.templatetags" then ["app1.templatetags.tags"] else []

/-- An order key modelling one process hash state (everything ties). -/
def hash0 : String → Nat := fun _ => 0

/-- An order key modelling another process hash state (the string a is
ordered last). -/
def hashA : String → Nat := fun t => if t = "a" then 1 else 0

/-- A TEMPLATES entry with a backend class and one context processor. -/
def tW : Template :=
  { BACKEND := "tb.mod.Cls", OPTIONS := some { context_processors := some ["cp.mod.fn"] } }

/-- A settings object populating every attribute the hook reads. -/
def sW : Settings :=
  { INSTALLED_APPS := some ["app1"]
    TEMPLATE_CONTEXT_PROCESSORS := some ["tcp.mod.fn"]
    TEMPLATES := some [tW]
    CACHES := some [{ BACKEND := some "cb.mod.Cls",
                      OPTIONS := some { CLIENT_CLASS := some "cc.mod.Cls" } }]
    STORAGES := some [{ BACKEND := some "st.mod.Cls" }]
    TEMPLATE_LOADERS := some ["tl.mod.Loader"]
    ROOT_URLCONF := some "proj.urls"
    AUTHENTICATION_BACKENDS := some ["ab.mod.Cls"]
    DEFAULT_FILE_STORAGE := some "dfs.mod.Cls"
    FILE_UPLOAD_HANDLERS := some ["fu.mod.Cls"]
    MIDDLEWARE_CLASSES := some ["mc.mod.Cls"]
    MIDDLEWARE := some ["mw.mod.Cls"]
    DATABASES := some [{ ENGINE := "db.backends.engine" }] }

/-- The settings object sW with a different STORAGES attribute. -/
def sWAltStorages : Settings := { sW with STORAGES := none }

/-- A minimal settings object: only the three unguarded attributes are
present. -/
def sMin : Settings :=
  { INSTALLED_APPS := some []
    TEMPLATE_CONTEXT_PROCESSORS := none
    TEMPLATES := none
    CACHES := none
    STORAGES := none
    TEMPLATE_LOADERS := none
    ROOT_URLCONF := some "proj.urls"
    AUTHENTICATION_BACKENDS := none
    DEFAULT_FILE_STORAGE := none
    FILE_UPLOAD_HANDLERS := none
    MIDDLEWARE_CLASSES := none
    MIDDLEWARE := none
    DATABASES := some [] }

/-- The settings object sW with the ROOT_URLCONF attribute absent. -/
def sNoRoot : Settings := { sW with ROOT_URLCONF := none }

/-- A small settings object whose collected list is the strings a, b, a:
its deduplication holds the two distinct strings a and b, whose relative
order depends on the hash state. -/
def s3 : Settings :=
  { sMin with TEMPLATE_LOADERS := some ["a", "b"], ROOT_URLCONF := some "a" }

/-- A settings object whose MIDDLEWARE holds one dot-free entry. -/
def sC10 : Settings := { sMin with MIDDLEWARE := some ["middlewaremodule"] }

/-- Claim C1: for every configuration object, when the hook returns a
list, that list contains no duplicate elements. -/
theorem C1_output_nodup (cs : String → List String) (h : String → Nat)
    (s : Settings) (out : List String)
    (hok : django_dottedstring_imports cs h s = Except.ok out) :
    out.Nodup := by
  obtain ⟨ia, ru, db, hIA, hRU, hDB, hout⟩ := (django_ok_iff cs h s out).mp hok
  rw [hout]
  exact pySetToList_nodup h _

/-- Witness for C1 at a concrete configuration. -/
theorem C1_output_nodup_witness :
    ∃ out, django_dottedstring_imports noCollect hash0 sW = Except.ok out ∧ out.Nodup :=
  ⟨_, rfl, C1_output_nodup noCollect hash0 sW _ rfl⟩

/-- Claim C2, counterexample: a configuration object without the
ROOT_URLCONF attribute makes the hook raise AttributeError (source line
89 reads `settings.ROOT_URLCONF` with no hasattr guard), so the hook does
not silently skip every absent attribute. -/
theorem C2_absent_attr_counterexample :
    django_dottedstring_imports noCollect hash0 sNoRoot =
      Except.error "AttributeError: settings object has no attribute ROOT_URLCONF" := rfl

/-- Claim C2, amended: an absent attribute among the guarded ones
(TEMPLATE_CONTEXT_PROCESSORS, TEMPLATES, CACHES, STORAGES,
TEMPLATE_LOADERS, AUTHENTICATION_BACKENDS, DEFAULT_FILE_STORAGE,
FILE_UPLOAD_HANDLERS, MIDDLEWARE_CLASSES, MIDDLEWARE) is silently
skipped and the hook still returns a list, provided the three unguarded
attributes INSTALLED_APPS, ROOT_URLCONF and DATABASES are present. -/
theorem C2_guarded_attrs_skipped (cs : String → List String) (h : String → Nat)
    (s : Settings) (ia : List String) (ru : String) (db : List Database)
    (hIA : s.INSTALLED_APPS = some ia) (hRU : s.ROOT_URLCONF = some ru)
    (hDB : s.DATABASES = some db) :
    ∃ out, django_dottedstring_imports cs h s = Except.ok out :=
  ⟨_, (django_ok_iff cs h s _).mpr ⟨ia, ru, db, hIA, hRU, hDB, rfl⟩⟩

/-- Witness for the amended C2: every guarded attribute absent, the hook
still returns a list. -/
theorem C2_guarded_attrs_skipped_witness :
    ∃ out, django_dottedstring_imports noCollect hash0 sMin = Except.ok out :=
  C2_guarded_attrs_skipped noCollect hash0 sMin [] "proj.urls" [] rfl rfl rfl

/-- Claim C3, counterexample: the hook deduplicates with `list(set(...))`
(source line 139), whose enumeration order follows the per-process string
hash, and the decorated function runs in a fresh subprocess on every
call; two runs with different hash states return the same elements in
different orders. -/
theorem C3_order_counterexample :
    django_dottedstring_imports noCollect hash0 s3 = Except.ok ["a", "b"] ∧
    django_dottedstring_imports noCollect hashA s3 = Except.ok ["b", "a"] ∧
    (["a", "b"] : List String) ≠ ["b", "a"] :=
  ⟨rfl, rfl, by decide⟩

/-- Claim C3, amended: two runs of the hook on the same configuration
object return lists with exactly the same elements (a permutation); only
the enumeration order may differ with the process hash state. -/
theorem C3_same_elements (cs : String → List String) (h1 h2 : String → Nat)
    (s : Settings) (out1 out2 : List String)
    (hok1 : django_dottedstring_imports cs h1 s = Except.ok out1)
    (hok2 : django_dottedstring_imports cs h2 s = Except.ok out2) :
    out1.Perm out2 := by
  obtain ⟨ia, ru, db, hIA, hRU, hDB, hout1⟩ := (django_ok_iff cs h1 s out1).mp hok1
  obtain ⟨ia2, ru2, db2, hIA2, hRU2, hDB2, hout2⟩ := (django_ok_iff cs h2 s out2).mp hok2
  rw [hIA] at hIA2
  rw [hRU] at hRU2
  rw [hDB] at hDB2
  obtain rfl := Option.some.inj hIA2
  obtain rfl := Option.some.inj hRU2
  obtain rfl := Option.some.inj hDB2
  rw [hout1, hout2]
  exact (pySetToList_perm_dedup h1 _).trans (pySetToList_perm_dedup h2 _).symm

/-- Witness for the amended C3 at a concrete configuration and two hash
states. -/
theorem C3_same_elements_witness :
    (["a", "b"] : List String).Perm ["b", "a"] :=
  C3_same_elements noCollect hash0 hashA s3 ["a", "b"] ["b", "a"] rfl rfl

/-- Claim C4: every class-name entry of AUTHENTICATION_BACKENDS,
FILE_UPLOAD_HANDLERS, MIDDLEWARE_CLASSES and MIDDLEWARE, every truthy
DEFAULT_FILE_STORAGE value, every truthy CACHES BACKEND and OPTIONS
CLIENT_CLASS value, and every TEMPLATES BACKEND value contributes its
module path (the dotted string with the final component removed by
_remove_class) to the output. -/
theorem C4_class_entries_stripped (cs : String → List String) (h : String → Nat)
    (s : Settings) (out : List String)
    (hok : django_dottedstring_imports cs h s = Except.ok out) :
    (∀ l, s.AUTHENTICATION_BACKENDS = some l → ∀ cl ∈ l, _remove_class cl ∈ out) ∧
    (∀ l, s.FILE_UPLOAD_HANDLERS = some l → ∀ cl ∈ l, _remove_class cl ∈ out) ∧
    (∀ l, s.MIDDLEWARE_CLASSES = some l → ∀ cl ∈ l, _remove_class cl ∈ out) ∧
    (∀ l, s.MIDDLEWARE = some l → ∀ cl ∈ l, _remove_class cl ∈ out) ∧
    (∀ v, s.DEFAULT_FILE_STORAGE = some v → v ≠ "" → _remove_class v ∈ out) ∧
    (∀ l, s.CACHES = some l → ∀ c ∈ l, ∀ b, c.BACKEND = some b → b ≠ "" →
      _remove_class b ∈ out) ∧
    (∀ l, s.CACHES = some l → ∀ c ∈ l, ∀ k,
      (c.OPTIONS.getD ⟨none⟩).CLIENT_CLASS = some k → k ≠ "" → _remove_class k ∈ out) ∧
    (∀ l, s.TEMPLATES = some l → ∀ t ∈ l, _remove_class t.BACKEND ∈ out) := by
  obtain ⟨ia, ru, db, hIA, hRU, hDB, hout⟩ := (django_ok_iff cs h s out).mp hok
  subst hout
  refine ⟨?_, ?_, ?_, ?_, ?_, ?_, ?_, ?_⟩
  · intro l hl cl hcl
    rw [mem_pySetToList]
    refine mem_hidden_auth cs ia ru db s _ ?_
    simp only [hl, authenticationBackendsImports]
    exact List.mem_map_of_mem _remove_class hcl
  · intro l hl cl hcl
    rw [mem_pySetToList]
    refine mem_hidden_fuh cs ia ru db s _ ?_
    simp only [hl, fileUploadHandlersImports]
    exact List.mem_map_of_mem _remove_class hcl
  · intro l hl cl hcl
    rw [mem_pySetToList]
    refine mem_hidden_mc cs ia ru db s _ ?_
    simp only [hl, middlewareClassesImports]
    exact List.mem_map_of_mem _remove_class hcl
  · intro l hl cl hcl
    rw [mem_pySetToList]
    refine mem_hidden_mw cs ia ru db s _ ?_
    simp only [hl, middlewareImports]
    exact List.mem_map_of_mem _remove_class hcl
  · intro v hv hne
    rw [mem_pySetToList]
    refine mem_hidden_dfs cs ia ru db s _ ?_
    have hE : v.isEmpty = false := by
      cases hE : v.isEmpty
      · rfl
      · exact absurd ((String.isEmpty_iff v).mp hE) hne
    simp [defaultFileStorageImports, hv, truthyStr, hE]
  · intro l hl c hc b hb hne
    rw [mem_pySetToList]
    refine mem_hidden_caches cs ia ru db s _ ?_
    simp only [hl, cachesImports, List.mem_flatMap]
    refine ⟨c, hc, ?_⟩
    have hE : b.isEmpty = false := by
      cases hE : b.isEmpty
      · rfl
      · exact absurd ((String.isEmpty_iff b).mp hE) hne
    simp [cacheImports, hb, truthyStr, hE]
  · intro l hl c hc k hk hne
    rw [mem_pySetToList]
    refine mem_hidden_caches cs ia ru db s _ ?_
    simp only [hl, cachesImports, List.mem_flatMap]
    refine ⟨c, hc, ?_⟩
    have hE : k.isEmpty = false := by
      cases hE : k.isEmpty
      · rfl
      · exact absurd ((String.isEmpty_iff k).mp hE) hne
    simp [cacheImports, hk, truthyStr, hE]
  · intro l hl t ht
    rw [mem_pySetToList]
    refine mem_hidden_templ_backend cs ia ru db s _ ?_
    simp only [hl, templatesBackendImports, List.mem_flatMap]
    exact ⟨t, ht, by simp [templateBackendImports]⟩

/-- Witness for C4: the MIDDLEWARE entry mw.mod.Cls of sW contributes its
module path mw.mod. -/
theorem C4_class_entries_stripped_witness :
    ∃ out, django_dottedstring_imports noCollect hash0 sW = Except.ok out ∧
      _remove_class "mw.mod.Cls" ∈ out := by
  refine ⟨_, rfl, ?_⟩
  exact (C4_class_entries_stripped noCollect hash0 sW _ rfl).2.2.2.1 _ rfl
    "mw.mod.Cls" (by decide)

/-- Claim C5: every INSTALLED_APPS entry, every TEMPLATE_CONTEXT_PROCESSORS
and TEMPLATE_LOADERS entry when present, the ROOT_URLCONF value, and the
ENGINE value of every DATABASES entry appear verbatim in the output. -/
theorem C5_verbatim_entries (cs : String → List String) (h : String → Nat)
    (s : Settings) (out : List String)
    (hok : django_dottedstring_imports cs h s = Except.ok out) :
    (∀ ia, s.INSTALLED_APPS = some ia → ∀ app ∈ ia, app ∈ out) ∧
    (∀ l, s.TEMPLATE_CONTEXT_PROCESSORS = some l → ∀ x ∈ l, x ∈ out) ∧
    (∀ l, s.TEMPLATE_LOADERS = some l → ∀ x ∈ l, x ∈ out) ∧
    (∀ ru, s.ROOT_URLCONF = some ru → ru ∈ out) ∧
    (∀ dbl, s.DATABASES = some dbl → ∀ d ∈ dbl, d.ENGINE ∈ out) := by
  obtain ⟨ia, ru, db, hIA, hRU, hDB, hout⟩ := (django_ok_iff cs h s out).mp hok
  subst hout
  refine ⟨?_, ?_, ?_, ?_, ?_⟩
  · intro ia2 hIA2 app happ
    rw [hIA] at hIA2
    obtain rfl := Option.some.inj hIA2
    rw [mem_pySetToList]
    exact mem_hidden_installed cs _ ru db s app happ
  · intro l hl x hx
    rw [mem_pySetToList]
    refine mem_hidden_tcp cs ia ru db s _ ?_
    simp only [hl, templateContextProcessorsImports]
    exact hx
  · intro l hl x hx
    rw [mem_pySetToList]
    refine mem_hidden_loaders cs ia ru db s _ ?_
    simp only [hl, templateLoadersImports]
    exact hx
  · intro ru2 hRU2
    rw [hRU] at hRU2
    obtain rfl := Option.some.inj hRU2
    rw [mem_pySetToList]
    exact mem_hidden_root cs ia _ db s
  · intro dbl hdbl d hd
    rw [hDB] at hdbl
    obtain rfl := Option.some.inj hdbl
    rw [mem_pySetToList]
    exact mem_hidden_db cs ia ru _ s _ (List.mem_map_of_mem Database.ENGINE hd)

/-- Witness for C5: the DATABASES ENGINE value of sW appears verbatim. -/
theorem C5_verbatim_entries_witness :
    ∃ out, django_dottedstring_imports noCollect hash0 sW = Except.ok out ∧
      "db.backends.engine" ∈ out := by
  refine ⟨_, rfl, ?_⟩
  exact (C5_verbatim_entries noCollect hash0 sW _ rfl).2.2.2.2 _ rfl
    { ENGINE := "db.backends.engine" } (by decide)

/-- Claim C6: for every INSTALLED_APPS entry app, the output contains
app.templatetags, app.context_processors, and every module returned by
the collect_submodules helper on app.templatetags. -/
theorem C6_app_modules (cs : String → List String) (h : String → Nat)
    (s : Settings) (out : List String) (ia : List String)
    (hok : django_dottedstring_imports cs h s = Except.ok out)
    (hIA : s.INSTALLED_APPS = some ia) :
    ∀ app ∈ ia,
      (app ++ ".templatetags") ∈ out ∧ (app ++ ".context_processors") ∈ out ∧
      ∀ m ∈ cs (app ++ ".templatetags"), m ∈ out := by
  obtain ⟨ia2, ru, db, hIA2, hRU, hDB, hout⟩ := (django_ok_iff cs h s out).mp hok
  rw [hIA] at hIA2
  obtain rfl := Option.some.inj hIA2
  subst hout
  intro app happ
  refine ⟨?_, ?_, ?_⟩
  · rw [mem_pySetToList]
    refine mem_hidden_apps cs _ ru db s _ ?_
    simp only [installedAppsExtraImports, List.mem_flatMap]
    exact ⟨app, happ, by simp [appImports]⟩
  · rw [mem_pySetToList]
    refine mem_hidden_apps cs _ ru db s _ ?_
    simp only [installedAppsExtraImports, List.mem_flatMap]
    exact ⟨app, happ, by simp [appImports]⟩
  · intro m hm
    rw [mem_pySetToList]
    refine mem_hidden_apps cs _ ru db s _ ?_
    simp only [installedAppsExtraImports, List.mem_flatMap]
    refine ⟨app, happ, ?_⟩
    simp [appImports]
    tauto

/-- Witness for C6 at the configuration sW with a collect_submodules
stub that reports one submodule. -/
theorem C6_app_modules_witness :
    ∃ out, django_dottedstring_imports collectW hash0 sW = Except.ok out ∧
      "app1.templatetags" ∈ out ∧ "app1.context_processors" ∈ out ∧
      "app1.templatetags.tags" ∈ out := by
  refine ⟨_, rfl, ?_⟩
  have happ := C6_app_modules collectW hash0 sW _ ["app1"] rfl rfl "app1" (by decide)
  exact ⟨happ.1, happ.2.1, happ.2.2 "app1.templatetags.tags" (by decide)⟩

/-- Claim C7: when the hook returns a list, that list is exactly the
deduplication of the concatenated per-attribute contributions (the list
hiddenimportsList): a permutation of its dedup, so the same elements with
nothing filtered, added, or otherwise transformed. -/
theorem C7_dedup_only (cs : String → List String) (h : String → Nat)
    (s : Settings) (out : List String)
    (hok : django_dottedstring_imports cs h s = Except.ok out) :
    ∃ ia ru db, s.INSTALLED_APPS = some ia ∧ s.ROOT_URLCONF = some ru ∧
      s.DATABASES = some db ∧
      out.Perm (hiddenimportsList cs ia ru db s).dedup := by
  obtain ⟨ia, ru, db, hIA, hRU, hDB, hout⟩ := (django_ok_iff cs h s out).mp hok
  refine ⟨ia, ru, db, hIA, hRU, hDB, ?_⟩
  rw [hout]
  exact pySetToList_perm_dedup h _

/-- Witness for C7 at a concrete configuration. -/
theorem C7_dedup_only_witness :
    ∃ out, django_dottedstring_imports noCollect hash0 sMin = Except.ok out ∧
      ∃ ia ru db, sMin.INSTALLED_APPS = some ia ∧ sMin.ROOT_URLCONF = some ru ∧
        sMin.DATABASES = some db ∧
        out.Perm (hiddenimportsList noCollect ia ru db sMin).dedup :=
  ⟨_, rfl, C7_dedup_only noCollect hash0 sMin _ rfl⟩

/-- Claim C8: the output is unaffected by the STORAGES attribute: two
configuration objects agreeing on every attribute except STORAGES give
the same result (the source computes the stripped STORAGES BACKEND values
on line 84 but never appends them). -/
theorem C8_storages_no_effect (cs : String → List String) (h : String → Nat)
    (s1 s2 : Settings)
    (h1 : s1.INSTALLED_APPS = s2.INSTALLED_APPS)
    (h2 : s1.TEMPLATE_CONTEXT_PROCESSORS = s2.TEMPLATE_CONTEXT_PROCESSORS)
    (h3 : s1.TEMPLATES = s2.TEMPLATES)
    (h4 : s1.CACHES = s2.CACHES)
    (h5 : s1.TEMPLATE_LOADERS = s2.TEMPLATE_LOADERS)
    (h6 : s1.ROOT_URLCONF = s2.ROOT_URLCONF)
    (h7 : s1.AUTHENTICATION_BACKENDS = s2.AUTHENTICATION_BACKENDS)
    (h8 : s1.DEFAULT_FILE_STORAGE = s2.DEFAULT_FILE_STORAGE)
    (h9 : s1.FILE_UPLOAD_HANDLERS = s2.FILE_UPLOAD_HANDLERS)
    (h10 : s1.MIDDLEWARE_CLASSES = s2.MIDDLEWARE_CLASSES)
    (h11 : s1.MIDDLEWARE = s2.MIDDLEWARE)
    (h12 : s1.DATABASES = s2.DATABASES) :
    django_dottedstring_imports cs h s1 = django_dottedstring_imports cs h s2 := by
  cases s1
  cases s2
  simp only at h1 h2 h3 h4 h5 h6 h7 h8 h9 h10 h11 h12
  subst h1 h2 h3 h4 h5 h6 h7 h8 h9 h10 h11 h12
  rfl

/-- Witness for C8: sW and sWAltStorages differ only in STORAGES and give
the same result. -/
theorem C8_storages_no_effect_witness :
    django_dottedstring_imports noCollect hash0 sW =
      django_dottedstring_imports noCollect hash0 sWAltStorages :=
  C8_storages_no_effect noCollect hash0 sW sWAltStorages
    rfl rfl rfl rfl rfl rfl rfl rfl rfl rfl rfl rfl

/-- Claim C9: every string under a TEMPLATES entry OPTIONS
context_processors key reaches the output verbatim (source line 69),
while the later branch that would strip it (source lines 120-124) is
guarded by hasattr on a dictionary, which is always false, so the
per-template backend section contributes only the stripped BACKEND and
never a stripped context processor. -/
theorem C9_ctx_processors_verbatim (cs : String → List String) (h : String → Nat)
    (s : Settings) (out : List String) (ts : List Template)
    (hok : django_dottedstring_imports cs h s = Except.ok out)
    (hts : s.TEMPLATES = some ts) :
    (∀ t ∈ ts, ∀ x ∈ templateCtxProcessors t, x ∈ out) ∧
    (∀ (t : Template), dictHasattr t "OPTIONS" = false) ∧
    (∀ (t : Template), templateBackendImports t = [_remove_class t.BACKEND]) := by
  obtain ⟨ia, ru, db, hIA, hRU, hDB, hout⟩ := (django_ok_iff cs h s out).mp hok
  subst hout
  refine ⟨?_, fun t => rfl, fun t => rfl⟩
  intro t ht x hx
  rw [mem_pySetToList]
  refine mem_hidden_templ_opts cs ia ru db s _ ?_
  simp only [hts, templatesOptionImports, List.mem_flatMap]
  exact ⟨t, ht, hx⟩

/-- Witness for C9: the context processor of sW appears verbatim in the
output. -/
theorem C9_ctx_processors_verbatim_witness :
    ∃ out, django_dottedstring_imports noCollect hash0 sW = Except.ok out ∧
      "cp.mod.fn" ∈ out := by
  refine ⟨_, rfl, ?_⟩
  exact (C9_ctx_processors_verbatim noCollect hash0 sW _ [tW] rfl rfl).1
    tW (by decide) "cp.mod.fn" (by decide)

/-- Claim C10: a class-name entry with no dot is stripped to the empty
string by _remove_class, and that empty string is appended to the output
(shown here for a MIDDLEWARE entry). -/
theorem C10_no_dot_empty_string (cs : String → List String) (h : String → Nat)
    (s : Settings) (out : List String) (l : List String) (cl : String)
    (hok : django_dottedstring_imports cs h s = Except.ok out)
    (hm : s.MIDDLEWARE = some l) (hcl : cl ∈ l) (hnd : '.' ∉ cl.data) :
    _remove_class cl = "" ∧ "" ∈ out := by
  obtain ⟨ia, ru, db, hIA, hRU, hDB, hout⟩ := (django_ok_iff cs h s out).mp hok
  subst hout
  have hrc : _remove_class cl = "" := _remove_class_of_no_dot cl hnd
  refine ⟨hrc, ?_⟩
  rw [mem_pySetToList]
  refine mem_hidden_mw cs ia ru db s "" ?_
  simp only [hm, middlewareImports]
  exact hrc ▸ List.mem_map_of_mem _remove_class hcl

/-- Witness for C10: the dot-free MIDDLEWARE entry of sC10 puts the empty
string into the output. -/
theorem C10_no_dot_empty_string_witness :
    ∃ out, django_dottedstring_imports noCollect hash0 sC10 = Except.ok out ∧
      _remove_class "middlewaremodule" = "" ∧ "" ∈ out := by
  refine ⟨_, rfl, ?_⟩
  exact C10_no_dot_empty_string noCollect hash0 sC10 _ _ "middlewaremodule"
    rfl rfl (by decide) (by decide)
